import Mathlib

/-!
# Formal model of the MassBalanceMachine data-processing core

Shallow embedding of the two source files
`data_processing/get_climate_data.py` and `dataloader/DataLoader.py`:
the hydrological date-range construction, the climate-column naming and
wide-format reshape, the longitude normalization, the frame combination,
and the stateful `DataLoader` train/test/CV splitting.

Numbers: Python floats carrying coordinates are modelled as `ℚ`,
years as `Int`, indices as `Nat`.  Missing values (`NaN` / `None`)
are modelled as `Option`.
-/

namespace MBM

/-! ## Dates (model of pandas month-end timestamps) -/

/-- A calendar date (proleptic Gregorian), as used by pandas timestamps. -/
structure Date where
  year : Int
  month : Int
  day : Int
deriving DecidableEq, Repr

/-- Gregorian leap-year rule (as used by pandas/numpy datetimes). -/
def isLeap (y : Int) : Bool :=
  (y % 4 == 0 && y % 100 != 0) || y % 400 == 0

/-- Number of days in a month of a given year. -/
def daysInMonth (y m : Int) : Int :=
  if m = 2 then (if isLeap y then 29 else 28)
  else if m = 4 ∨ m = 6 ∨ m = 9 ∨ m = 11 then 30
  else 31

/-- The month-end date of month `m` of year `y`. -/
def monthEnd (y m : Int) : Date :=
  ⟨y, m, daysInMonth y m⟩

/-- Calendar order on dates, as a Boolean (year, then month, then day). -/
def dateLe (a b : Date) : Bool :=
  decide (a.year < b.year) ||
    (decide (a.year = b.year) &&
      (decide (a.month < b.month) ||
        (decide (a.month = b.month) && decide (a.day ≤ b.day))))

/-- Successor month: step `(year, month)` forward by one month. -/
def nextMonth : Int × Int → Int × Int
  | (y, m) => if m = 12 then (y + 1, 1) else (y, m + 1)

/-- The list of `n` consecutive `(year, month)` pairs starting at `p`. -/
def monthsFrom (p : Int × Int) : Nat → List (Int × Int)
  | 0 => []
  | n + 1 => p :: monthsFrom (nextMonth p) n

/-- Model of `pandas.date_range(start, end, freq="ME")`: every month-end
timestamp lying in the closed interval `[start, stop]`, chronologically. -/
def dateRangeME (start stop : Date) : List Date :=
  let count := (12 * (stop.year - start.year) + (stop.month - start.month) + 1).toNat
  ((monthsFrom (start.year, start.month) count).map
      (fun p => monthEnd p.1 p.2)).filter
    (fun d => dateLe start d && dateLe d stop)

/-- Embedding of `_create_date_range` (get_climate_data.py:137-142):
`None` for a missing year, otherwise the month-end range from
`{year-1}-09-01` to `{year}-09-01`. -/
def _create_date_range (year : Option Int) : Option (List Date) :=
  year.map (fun y => dateRangeME ⟨y - 1, 9, 1⟩ ⟨y, 9, 1⟩)

/-- The twelve month-end dates of hydrological year `y`
(September of `y-1` through August of `y`). -/
def hydroMonthEnds (y : Int) : List Date :=
  [⟨y - 1, 9, 30⟩, ⟨y - 1, 10, 31⟩, ⟨y - 1, 11, 30⟩, ⟨y - 1, 12, 31⟩,
   ⟨y, 1, 31⟩, ⟨y, 2, if isLeap y then 29 else 28⟩, ⟨y, 3, 31⟩, ⟨y, 4, 30⟩,
   ⟨y, 5, 31⟩, ⟨y, 6, 30⟩, ⟨y, 7, 31⟩, ⟨y, 8, 31⟩]

/-! ## Climate variable naming and the wide-format reshape -/

/-- Python's `calendar.month_abbr` (index 0 is the empty string). -/
def month_abbr : List String :=
  ["", "Jan", "Feb", "Mar", "Apr", "May", "Jun", "Jul", "Aug", "Sep",
   "Oct", "Nov", "Dec"]

/-- ASCII lowercasing of one character (`str.lower()` on the month
abbreviations only meets ASCII letters). -/
def lowerChar (c : Char) : Char :=
  if c.isUpper then Char.ofNat (c.toNat + 32) else c

/-- ASCII lowercasing of a string, modelling Python's `str.lower()`. -/
def lowerStr (s : String) : String := ⟨s.data.map lowerChar⟩

/-- The month-suffix list of `_generate_climate_variable_names`
(get_climate_data.py:129): `month_abbr[10:] + month_abbr[1:10]`, each
lowercased and preceded by an underscore. -/
def months_names : List String :=
  (month_abbr.drop 10 ++ (month_abbr.drop 1).take 9).map
    (fun m => "_" ++ lowerStr m)

/-- Embedding of `_generate_climate_variable_names`
(get_climate_data.py:126-134): one label per (variable, month suffix),
variable-major. -/
def _generate_climate_variable_names (climate_variables : List String) :
    List String :=
  climate_variables.flatMap (fun v => months_names.map (fun m => v ++ m))

/-- Cut a list into blocks of 12 consecutive elements
(`reshape(-1, 12, num_cols)` on the row axis; the long-format table has
12 rows per record). -/
def chunksOf12 : List α → List (List α)
  | a :: b :: c :: d :: e :: f :: g :: h :: i :: j :: k :: l :: rest =>
      [a, b, c, d, e, f, g, h, i, j, k, l] :: chunksOf12 rest
  | [] => []
  | l => [l]

/-- Embedding of the reshape of `_process_climate_data`
(get_climate_data.py:180-189): the long-format table (one row per
(record, month), one column per climate variable) is grouped into blocks of
12 consecutive rows, each block transposed and flattened
(`reshape(-1, 12, num_cols).transpose(0, 2, 1).reshape(-1, 12 * num_cols)`),
giving one row per record with the 12 months of each variable consecutive. -/
def reshapeWide (climate_df : List (List α)) : List (List α) :=
  (chunksOf12 climate_df).map (fun g => g.transpose.flatten)

/-! ## Stake-measurement rows and the enrichment pipeline -/

/-- The identity and measurement fields of one stake-measurement record
(the input table columns used by the extractor). -/
structure StakeRow where
  ID : Nat
  RGIId : Nat
  POINT_LAT : ℚ
  POINT_LON : ℚ
  POINT_ELEVATION : ℚ
  YEAR : Option Int
  POINT_BALANCE : ℚ
deriving DecidableEq, Repr

/-- A record together with the transient `range_date` column. -/
structure RangedRow where
  row : StakeRow
  range_date : Option (List Date)
deriving DecidableEq, Repr

/-- Embedding of `_add_date_range` (get_climate_data.py:145-148). -/
def _add_date_range (df : List StakeRow) : List RangedRow :=
  df.map (fun r => ⟨r, _create_date_range r.YEAR⟩)

/-- Embedding of the date-array construction of `_process_climate_data`
(get_climate_data.py:159): `np.array([r.values for r in
df["range_date"].values])`; a missing range is `None`, and `None.values`
raises `AttributeError` at the first such record. -/
def buildDateArray (df : List RangedRow) :
    Except String (List (List Date)) :=
  df.mapM (fun r => match r.range_date with
    | none => .error "AttributeError: NoneType has no attribute values"
    | some rng => .ok rng)

/-- Embedding of `_process_climate_data` (get_climate_data.py:151-193).
The external `xarray` nearest-neighbour lookup `ds_climate.sel` is
abstracted as a function `sel` giving, per (lat, lon, timestamp), the row
of climate-variable values; as in the source, the per-record date array is
built first (raising on a missing range), the long-format table has one
row per (record, month), and the reshape produces the wide table whose
labels are `_generate_climate_variable_names`. -/
def _process_climate_data (sel : ℚ → ℚ → Date → List ℚ)
    (df : List RangedRow) : Except String (List (List ℚ)) := do
  let dates ← buildDateArray df
  let climate_df := (df.zip dates).flatMap
    (fun pr => pr.2.map (fun d => sel pr.1.row.POINT_LAT pr.1.row.POINT_LON d))
  pure (reshapeWide climate_df)

/-- A record after `_combine_dataframes`: original columns (the transient
range column dropped), the wide climate columns, and `ALTITUDE_CLIMATE`. -/
structure CombinedRow where
  row : StakeRow
  climate : List ℚ
  ALTITUDE_CLIMATE : ℚ
deriving DecidableEq, Repr

/-- A record after `_calculate_elevation_difference`. -/
structure EnrichedRow where
  row : StakeRow
  climate : List ℚ
  ALTITUDE_CLIMATE : ℚ
  ELEVATION_DIFFERENCE : ℚ
deriving DecidableEq, Repr

/-- Three equal-length tables zipped by row position. -/
def zip3 (a : List α) (b : List β) (c : List γ) : List (α × β × γ) :=
  a.zip (b.zip c)

/-- Embedding of `_combine_dataframes` (get_climate_data.py:214-230): the
transient `range_date` column is dropped, the three tables (records, wide
climate, altitude) are concatenated column-wise by row position
(`pd.concat(axis=1)` over equal-length frames), `altitude_climate` is
renamed `ALTITUDE_CLIMATE`, and rows whose `ALTITUDE_CLIMATE` is missing
are dropped (`dropna`). -/
def _combine_dataframes (df : List RangedRow) (climate_df : List (List ℚ))
    (altitude_df : List (Option ℚ)) : List CombinedRow :=
  (zip3 df climate_df altitude_df).filterMap
    (fun t => t.2.2.map (fun a => ⟨t.1.row, t.2.1, a⟩))

/-- Embedding of `_calculate_elevation_difference`
(get_climate_data.py:233-236). -/
def _calculate_elevation_difference (l : List CombinedRow) :
    List EnrichedRow :=
  l.map (fun c => ⟨c.row, c.climate, c.ALTITUDE_CLIMATE,
    c.ALTITUDE_CLIMATE - c.row.POINT_ELEVATION⟩)

/-! ## Longitude normalization -/

/-- Floor-based modulus on rationals: the semantics of Python's `%` on
floats (the result has the sign of the divisor). -/
def fmod (x y : ℚ) : ℚ := x - y * ⌊x / y⌋

/-- Insert a (longitude, column) pair into a list sorted by longitude. -/
def insertByLon (p : ℚ × α) : List (ℚ × α) → List (ℚ × α)
  | [] => [p]
  | q :: qs => if p.1 ≤ q.1 then p :: q :: qs else q :: insertByLon p qs

/-- Ascending insertion sort on the longitude component, modelling
`Dataset.sortby("longitude")`. -/
def sortByLon : List (ℚ × α) → List (ℚ × α)
  | [] => []
  | p :: ps => insertByLon p (sortByLon ps)

/-- Embedding of `_adjust_longitude` (get_climate_data.py:112-116): the
terrain grid is a list of (longitude, column) pairs; each longitude is
mapped through `((lon + 180) % 360) - 180` and the grid is re-sorted
ascending by longitude. -/
def _adjust_longitude (grid : List (ℚ × α)) : List (ℚ × α) :=
  sortByLon (grid.map (fun p => (fmod (p.1 + 180) 360 - 180, p.2)))

/-! ## DataLoader (dataloader/DataLoader.py) -/

/-- The columns of the enriched table used by the `DataLoader`. -/
structure DLRow where
  ID : Nat
  RGIId : Nat
  POINT_BALANCE : ℚ
deriving DecidableEq, Repr

/-- The errors the `DataLoader` methods can raise: the line-158
`ValueError` for a missing train/test split (the spec's `StateError`), the
line-99 assertion (`InvariantViolation`), and `ValueError`s raised inside
scikit-learn. -/
inductive DLError where
  | stateError
  | assertionError
  | valueError
deriving DecidableEq, Repr

/-- The `DataLoader` object state (DataLoader.py:40-53). -/
structure DataLoader where
  data : List DLRow
  random_seed : Nat
  test_size : Option ℚ
  n_splits : Option Nat
  train_indices : Option (List Nat)
  test_indices : Option (List Nat)
deriving DecidableEq, Repr

/-- `DataLoader.__init__` (DataLoader.py:40-53). -/
def DataLoader.init (data : List DLRow) (random_seed : Nat) : DataLoader :=
  ⟨data, random_seed, none, none, none, none⟩

/-- `np.intersect1d`: the distinct common values of two arrays (the source
only tests emptiness; the model keeps them unsorted). -/
def intersect1d (a b : List Nat) : List Nat :=
  (a.filter (fun x => b.contains x)).dedup

/-- The stake-measurement IDs of the rows at the given positional indices
(numpy fancy indexing `stake_meas_id[indices]`). -/
def stakeIDsAt (data : List DLRow) (idx : List Nat) : List Nat :=
  idx.filterMap (fun i => (data.map (fun r => r.ID))[i]?)

/-- Embedding of `set_train_test_split` (DataLoader.py:55-105).  The
external `GroupShuffleSplit(n_splits=1, test_size, random_state).split(X,
y, stake_meas_id)` is abstracted as a function `gss` of the test size, the
seed and the group column, returning the (train, test) index arrays.  The
`shuffle` argument is accepted and, as in the source, never used.  The
line-99 disjointness assertion is the `assertionError` branch. -/
def set_train_test_split (dl : DataLoader)
    (gss : ℚ → Nat → List Nat → List Nat × List Nat)
    (test_size : ℚ) (shuffle : Bool) :
    Except DLError (DataLoader × List Nat × List Nat) :=
  let stake_meas_id := dl.data.map (fun r => r.ID)
  let ti := gss test_size dl.random_seed stake_meas_id
  let train_stake_meas_id := stakeIDsAt dl.data ti.1
  let test_stake_meas_id := stakeIDsAt dl.data ti.2
  if (intersect1d train_stake_meas_id test_stake_meas_id).length = 0 then
    .ok (⟨dl.data, dl.random_seed, some test_size, dl.n_splits,
          some ti.1, some ti.2⟩, ti.1, ti.2)
  else
    .error .assertionError

/-- `_get_train_data` (DataLoader.py:161-164): `data.iloc[train_indices]`. -/
def _get_train_data (dl : DataLoader) : List DLRow :=
  (dl.train_indices.getD []).filterMap (fun i => dl.data[i]?)

/-- Modelled from the spec: scikit-learn's `GroupKFold` (external to this
repository) performs k-fold over groups: each distinct group key is
assigned to exactly one of the `n_splits` folds (the library's balancing
heuristic is not part of the spec; the model distributes the distinct keys
round-robin), fold `f`'s validation indices are the positions whose key
landed in fold `f`, its train indices are all the other positions, and the
library raises `ValueError` when `n_splits < 2` or when there are fewer
distinct groups than splits. -/
def groupKFold (k : Nat) (groups : List Nat) :
    Except DLError (List (List Nat × List Nat)) :=
  let uniq := groups.dedup
  if k < 2 ∨ uniq.length < k then .error .valueError
  else
    .ok ((List.range k).map (fun f =>
      ((List.range groups.length).filter
          (fun i => decide (¬ uniq.indexOf (groups.getD i 0) % k = f)),
       (List.range groups.length).filter
          (fun i => decide (uniq.indexOf (groups.getD i 0) % k = f)))))

/-- Cut a list into consecutive chunks of the given sizes. -/
def splitChunks : List Nat → List α → List (List α)
  | [], _ => []
  | s :: ss, l => l.take s :: splitChunks ss (l.drop s)

/-- scikit-learn `KFold` fold sizes: `n / k`, plus one for the first
`n % k` folds. -/
def kfoldSizes (k n : Nat) : List Nat :=
  (List.range k).map (fun f => n / k + if f < n % k then 1 else 0)

/-- Modelled from the spec: scikit-learn's `KFold(shuffle=True,
random_state=seed)` (external to this repository): the seed determines a
permutation of the row positions (passed here as `perm`); the permuted
positions are cut into `n_splits` consecutive validation chunks of the
`kfoldSizes` sizes, each fold's train indices are the positions outside
its chunk in ascending order, and the library raises `ValueError` when
`n_splits < 2` or when there are fewer samples than splits. -/
def kfoldShuffle (k n : Nat) (perm : List Nat) :
    Except DLError (List (List Nat × List Nat)) :=
  if k < 2 ∨ n < k then .error .valueError
  else
    .ok ((splitChunks (kfoldSizes k n) perm).map (fun val =>
      ((List.range n).filter (fun i => !(val.contains i)), val)))

/-- Embedding of `_create_group_kfold_splits` (DataLoader.py:177-193). -/
def _create_group_kfold_splits (glacier_ids stake_meas_id : List Nat)
    (n_splits : Nat) (type_fold : String) (perm : List Nat) :
    Except DLError (List (List Nat × List Nat)) :=
  if type_fold = "group-rgi" then groupKFold n_splits glacier_ids
  else if type_fold = "group-meas-id" then groupKFold n_splits stake_meas_id
  else kfoldShuffle n_splits glacier_ids.length perm

/-- Embedding of `get_cv_split` (DataLoader.py:107-149) together with
`_validate_train_iterator` (155-159) and `_prepare_data_for_cv` (166-175):
the not-yet-split state check, then fold creation over the training
subset. -/
def get_cv_split (dl : DataLoader) (n_splits : Nat) (type_fold : String)
    (perm : List Nat) : Except DLError (List (List Nat × List Nat)) :=
  match dl.train_indices with
  | none => .error .stateError
  | some _ =>
    let train_data := _get_train_data dl
    let glacier_ids := train_data.map (fun r => r.RGIId)
    let stake_meas_id := train_data.map (fun r => r.ID)
    _create_group_kfold_splits glacier_ids stake_meas_id n_splits type_fold
      perm

/-- The grouping-key column `get_cv_split` uses for a group-based fold
type: glacier IDs for `"group-rgi"`, stake-measurement IDs for
`"group-meas-id"`. -/
def cvGroups (dl : DataLoader) (type_fold : String) : List Nat :=
  if type_fold = "group-rgi" then (_get_train_data dl).map (fun r => r.RGIId)
  else (_get_train_data dl).map (fun r => r.ID)

/-! ## Concrete instances used by the witnesses -/

/-- A four-row dataset: two stakes on glacier 10, two on glacier 20. -/
def dataW : List DLRow := [⟨1, 10, 0⟩, ⟨2, 10, 0⟩, ⟨3, 20, 0⟩, ⟨4, 20, 0⟩]

/-- A loader whose train/test split has already been made (all four rows
in the training subset). -/
def dlW : DataLoader :=
  ⟨dataW, 42, none, none, some [0, 1, 2, 3], some []⟩

/-- The group splitter used by the witnesses: first two rows to train,
last two to test. -/
def gssW : ℚ → Nat → List Nat → List Nat × List Nat :=
  fun _ _ _ => ([0, 1], [2, 3])

/-- The loader state after the witnesses' successful
`set_train_test_split`. -/
def dlWsplit : DataLoader :=
  ⟨dataW, 42, some (3 / 10), none, some [0, 1], some [2, 3]⟩

/-- The folds returned by `get_cv_split dlW 2 "group-rgi"`. -/
def foldsW : List (List Nat × List Nat) :=
  [([2, 3], [0, 1]), ([0, 1], [2, 3])]

/-- A one-record stake table for the enrichment witness. -/
def stakeW : StakeRow := ⟨7, 3, 46, 8, 100, some 2020, -1⟩

/-- The enriched record the pipeline produces from `stakeW`. -/
def enrichedW : EnrichedRow := ⟨stakeW, [1, 2], 2650, 2550⟩

/-! # Theorems -/

theorem dateRangeME_hydro (y : Int) :
    dateRangeME ⟨y - 1, 9, 1⟩ ⟨y, 9, 1⟩ = hydroMonthEnds y := by
  have h1 : y - 1 < y := by omega
  have h2 : ¬ (y < y - 1) := by omega
  have h3 : y - 1 + 1 = y := by omega
  have h4 : (12 * (y - (y - 1)) + ((9 : Int) - 9) + 1).toNat = 13 := by omega
  simp only [dateRangeME]
  rw [h4]
  simp only [monthsFrom, nextMonth, hydroMonthEnds]
  norm_num [monthEnd, dateLe, daysInMonth, List.filter, h1, h2, h3]

theorem create_date_range_eq (y : Int) :
    _create_date_range (some y) = some (hydroMonthEnds y) := by
  simp only [_create_date_range, Option.map, dateRangeME_hydro]

/-- C2: for every defined year `Y`, the generated hydrological date range
has exactly 12 month-end timestamps, the first being the end of September
of `Y-1` and the last the end of August of `Y`. -/
theorem C2_hydro_range_correct (y : Int) :
    ∃ r, _create_date_range (some y) = some r ∧ r.length = 12 ∧
      r.head? = some ⟨y - 1, 9, 30⟩ ∧ r.getLast? = some ⟨y, 8, 31⟩ := by
  refine ⟨hydroMonthEnds y, create_date_range_eq y, ?_, ?_, ?_⟩ <;>
    simp [hydroMonthEnds]

/-- C1 (code bug): the wide-format column labels are misaligned with the
data by one month.  `_generate_climate_variable_names` labels the twelve
per-variable columns `oct, nov, ..., aug, sep` while the hydrological date
range (hence the long-format table and the reshaped wide row) starts at
September: with one variable `t2m` whose twelve monthly values for the
2020 hydrological year are `0, ..., 11` (September = 0, ..., August = 11),
the wide row is `[0, ..., 11]`, so its first column, labelled `t2m_oct`,
holds the September value; in particular the labels are not in the
hydrological order `sep, ..., aug` stated by the claim. -/
theorem C1_labels_misaligned :
    _generate_climate_variable_names ["t2m"] =
      ["t2m_oct", "t2m_nov", "t2m_dec", "t2m_jan", "t2m_feb", "t2m_mar",
       "t2m_apr", "t2m_may", "t2m_jun", "t2m_jul", "t2m_aug", "t2m_sep"] ∧
    _generate_climate_variable_names ["t2m"] ≠
      ["t2m_sep", "t2m_oct", "t2m_nov", "t2m_dec", "t2m_jan", "t2m_feb",
       "t2m_mar", "t2m_apr", "t2m_may", "t2m_jun", "t2m_jul", "t2m_aug"] ∧
    (_create_date_range (some 2020)).map (fun r => r.head?) =
      some (some ⟨2019, 9, 30⟩) ∧
    reshapeWide [[(0 : ℚ)], [1], [2], [3], [4], [5], [6], [7], [8], [9],
      [10], [11]] = [[0, 1, 2, 3, 4, 5, 6, 7, 8, 9, 10, 11]] := by
  refine ⟨by decide, by decide, by decide, by decide⟩

/-- C4 (code bug): a record with an undefined year is not excluded before
the reshape: `_process_climate_data` raises `AttributeError` while
building the per-record date array (`None` has no `.values` attribute),
whatever the climate lookup, even though the first record of the table is
valid; no output is produced for the remaining records. -/
theorem C4_missing_year_raises (sel : ℚ → ℚ → Date → List ℚ) :
    _process_climate_data sel
      (_add_date_range
        [⟨1, 5, 0, 0, 100, some 2020, 0⟩, ⟨2, 5, 0, 0, 100, none, 0⟩]) =
      .error "AttributeError: NoneType has no attribute values" := rfl

theorem fmod_in_range_eq {x : ℚ} (h0 : -180 ≤ x) (h1 : x < 180) :
    fmod (x + 180) 360 - 180 = x := by
  have hfloor : ⌊(x + 180) / 360⌋ = 0 := by
    rw [Int.floor_eq_zero_iff, Set.mem_Ico]
    constructor
    · exact div_nonneg (by linarith) (by norm_num)
    · rw [div_lt_one (by norm_num)]
      linarith
  rw [fmod, hfloor]
  push_cast
  ring

theorem map_id_of_mem : ∀ (l : List α) (f : α → α),
    (∀ a ∈ l, f a = a) → l.map f = l
  | [], _, _ => rfl
  | a :: l, f, h => by
      rw [List.map_cons, h a (List.mem_cons_self a l),
        map_id_of_mem l f (fun b hb => h b (List.mem_cons_of_mem a hb))]

theorem sortByLon_sorted_eq : ∀ (l : List (ℚ × α)),
    l.Chain' (fun a b => a.1 ≤ b.1) → sortByLon l = l
  | [], _ => rfl
  | [_], _ => rfl
  | p :: q :: qs, h => by
      rw [List.chain'_cons] at h
      show insertByLon p (sortByLon (q :: qs)) = p :: q :: qs
      rw [sortByLon_sorted_eq (q :: qs) h.2]
      show (if p.1 ≤ q.1 then p :: q :: qs else q :: insertByLon p qs) =
        p :: q :: qs
      rw [if_pos h.1]

/-- C8: longitude normalization is idempotent: on a terrain grid whose
longitudes already lie in `[-180, 180)` in ascending order,
`_adjust_longitude` (normalize then sort) is the identity. -/
theorem C8_adjust_longitude_idempotent {α : Type} (grid : List (ℚ × α))
    (hrange : ∀ p ∈ grid, -180 ≤ p.1 ∧ p.1 < 180)
    (hsorted : grid.Chain' (fun a b => a.1 ≤ b.1)) :
    _adjust_longitude grid = grid := by
  rw [_adjust_longitude, map_id_of_mem grid _ (fun p hp => ?_),
    sortByLon_sorted_eq grid hsorted]
  obtain ⟨h0, h1⟩ := hrange p hp
  rw [fmod_in_range_eq h0 h1]

theorem C8_witness :
    _adjust_longitude [((-180 : ℚ), (0 : Nat)), (0, 1), (179, 2)] =
      [(-180, 0), (0, 1), (179, 2)] :=
  C8_adjust_longitude_idempotent _
    (by
      intro p hp
      simp only [List.mem_cons, List.not_mem_nil, or_false] at hp
      rcases hp with rfl | rfl | rfl <;> norm_num)
    (by
      simp only [List.chain'_cons, List.chain'_singleton, and_true]
      norm_num)

/-- C9: enrichment does not alter identity fields: every record the
combined-and-enriched output keeps carries the ID, glacier ID, latitude,
longitude and year of an input record unchanged; `_combine_dataframes`
drops the transient range column and only appends the climate columns and
`ALTITUDE_CLIMATE`, and `_calculate_elevation_difference` only appends
`ELEVATION_DIFFERENCE`. -/
theorem C9_identity_fields_preserved (df : List StakeRow)
    (climate_df : List (List ℚ)) (altitude_df : List (Option ℚ))
    (e : EnrichedRow)
    (he : e ∈ _calculate_elevation_difference
      (_combine_dataframes (_add_date_range df) climate_df altitude_df)) :
    ∃ r ∈ df, e.row.ID = r.ID ∧ e.row.RGIId = r.RGIId ∧
      e.row.POINT_LAT = r.POINT_LAT ∧ e.row.POINT_LON = r.POINT_LON ∧
      e.row.YEAR = r.YEAR := by
  simp only [_calculate_elevation_difference, List.mem_map] at he
  obtain ⟨c, hc, rfl⟩ := he
  simp only [_combine_dataframes, List.mem_filterMap] at hc
  obtain ⟨⟨rr, cl, alt⟩, ht, hsome⟩ := hc
  rw [Option.map_eq_some'] at hsome
  obtain ⟨a, -, rfl⟩ := hsome
  have ht' : (rr, (cl, alt)) ∈
      (_add_date_range df).zip (climate_df.zip altitude_df) := ht
  have h1 : rr ∈ _add_date_range df := (List.of_mem_zip ht').1
  simp only [_add_date_range, List.mem_map] at h1
  obtain ⟨r, hr, rfl⟩ := h1
  exact ⟨r, hr, rfl, rfl, rfl, rfl, rfl⟩

theorem C9_witness :
    ∃ r ∈ [stakeW], enrichedW.row.ID = r.ID ∧
      enrichedW.row.RGIId = r.RGIId ∧
      enrichedW.row.POINT_LAT = r.POINT_LAT ∧
      enrichedW.row.POINT_LON = r.POINT_LON ∧
      enrichedW.row.YEAR = r.YEAR :=
  C9_identity_fields_preserved [stakeW] [[1, 2]] [some 2650] enrichedW
    (by norm_num [_calculate_elevation_difference, _combine_dataframes,
      _add_date_range, zip3, enrichedW, stakeW])

/-! ### DataLoader lemmas -/

theorem intersect1d_eq_nil {a b : List Nat}
    (h : (intersect1d a b).length = 0) : ∀ x ∈ a, x ∉ b := by
  intro x hx hxb
  have h0 : intersect1d a b = [] := List.length_eq_zero.mp h
  rw [intersect1d, List.dedup_eq_nil] at h0
  have h1 := List.filter_eq_nil_iff.mp h0 x hx
  simp only [List.contains, List.elem_iff] at h1
  exact h1 hxb

/-- C3: after every successful `set_train_test_split`, the set of
stake-measurement IDs of the rows assigned to train and the set of IDs of
the rows assigned to test are disjoint; the line-99 assertion performs
exactly this check before the method returns, raising on any grouped
split whose two sides share an ID. -/
theorem C3_train_test_ids_disjoint :
    (∀ dl gss ts sh out, set_train_test_split dl gss ts sh = .ok out →
      ∀ x ∈ stakeIDsAt dl.data out.2.1, x ∉ stakeIDsAt dl.data out.2.2) ∧
    (∀ (dl : DataLoader) (gss : ℚ → Nat → List Nat → List Nat × List Nat)
      (ts : ℚ) (sh : Bool) (x : Nat),
      x ∈ stakeIDsAt dl.data
        (gss ts dl.random_seed (dl.data.map (fun r => r.ID))).1 →
      x ∈ stakeIDsAt dl.data
        (gss ts dl.random_seed (dl.data.map (fun r => r.ID))).2 →
      set_train_test_split dl gss ts sh = .error .assertionError) := by
  constructor
  · intro dl gss ts sh out hok
    simp only [set_train_test_split] at hok
    split at hok
    · rename_i hcond
      cases hok
      intro x hx
      exact intersect1d_eq_nil hcond x hx
    · cases hok
  · intro dl gss ts sh x hx1 hx2
    simp only [set_train_test_split]
    rw [if_neg]
    intro hlen
    exact intersect1d_eq_nil hlen x hx1 hx2

theorem C3_witness : (1 : Nat) ∉ stakeIDsAt dataW [2, 3] :=
  C3_train_test_ids_disjoint.1 (DataLoader.init dataW 42) gssW (3 / 10) true
    (dlWsplit, [0, 1], [2, 3]) rfl 1 (by decide)

/-- C10: the `shuffle` argument of `set_train_test_split` has no effect on
the produced partition: the source accepts it but never uses it (the
`train_test_split` call that would consume it is commented out), so for
every dataset, grouped splitter, test size and seed the two runs agree. -/
theorem C10_shuffle_has_no_effect (dl : DataLoader)
    (gss : ℚ → Nat → List Nat → List Nat × List Nat) (ts : ℚ)
    (sh1 sh2 : Bool) :
    set_train_test_split dl gss ts sh1 = set_train_test_split dl gss ts sh2 :=
  rfl

theorem groupKFold_not_stateError (k : Nat) (g : List Nat) :
    groupKFold k g ≠ .error .stateError := by
  rw [groupKFold]
  split <;> simp

theorem kfoldShuffle_not_stateError (k n : Nat) (perm : List Nat) :
    kfoldShuffle k n perm ≠ .error .stateError := by
  rw [kfoldShuffle]
  split <;> simp

theorem create_splits_not_stateError (g s : List Nat) (k : Nat)
    (tf : String) (perm : List Nat) :
    _create_group_kfold_splits g s k tf perm ≠ .error .stateError := by
  rw [_create_group_kfold_splits]
  split
  · exact groupKFold_not_stateError k g
  · split
    · exact groupKFold_not_stateError k s
    · exact kfoldShuffle_not_stateError k g.length perm

/-- C7: `get_cv_split` fails with the not-yet-split state error exactly
when no train/test split has been made: on a freshly initialized loader it
returns the state error whatever the arguments, and on any state produced
by a successful `set_train_test_split` it never returns the state error
(`ValueError`s raised inside scikit-learn remain possible). -/
theorem C7_state_error_iff_unsplit :
    (∀ data seed k tf perm,
      get_cv_split (DataLoader.init data seed) k tf perm =
        .error .stateError) ∧
    (∀ dl gss ts sh out,
      set_train_test_split dl gss ts sh = .ok out →
      ∀ k tf perm, get_cv_split out.1 k tf perm ≠ .error .stateError) := by
  constructor
  · intro data seed k tf perm
    rfl
  · intro dl gss ts sh out hok k tf perm
    have htr : ∃ ti, out.1.train_indices = some ti := by
      simp only [set_train_test_split] at hok
      split at hok
      · cases hok
        exact ⟨_, rfl⟩
      · cases hok
    obtain ⟨ti, hti⟩ := htr
    simp only [get_cv_split, hti]
    exact create_splits_not_stateError _ _ k tf perm

theorem C7_witness :
    get_cv_split (DataLoader.init [] 0) 5 "random" [] = .error .stateError ∧
    get_cv_split dlWsplit 2 "group-rgi" [0, 1] ≠ .error .stateError :=
  ⟨C7_state_error_iff_unsplit.1 [] 0 5 "random" [],
   C7_state_error_iff_unsplit.2 (DataLoader.init dataW 42) gssW (3 / 10)
     true (dlWsplit, [0, 1], [2, 3]) rfl 2 "group-rgi" [0, 1]⟩

theorem groupKFold_ok (k : Nat) (groups : List Nat)
    (folds : List (List Nat × List Nat))
    (h : groupKFold k groups = .ok folds) :
    2 ≤ k ∧
    folds = (List.range k).map (fun f =>
      ((List.range groups.length).filter
          (fun i => decide (¬ (groups.dedup).indexOf (groups.getD i 0) % k = f)),
       (List.range groups.length).filter
          (fun i => decide ((groups.dedup).indexOf (groups.getD i 0) % k = f)))) := by
  simp only [groupKFold] at h
  split at h
  · cases h
  · rename_i hcond
    push_neg at hcond
    exact ⟨by omega, (Except.ok.inj h).symm⟩

theorem groupKFold_no_group_overlap {k : Nat} {groups : List Nat}
    {folds : List (List Nat × List Nat)}
    (h : groupKFold k groups = .ok folds) :
    ∀ p ∈ folds, ∀ i ∈ p.1, ∀ j ∈ p.2,
      groups.getD i 0 ≠ groups.getD j 0 := by
  obtain ⟨-, rfl⟩ := groupKFold_ok _ _ _ h
  intro p hp i hi j hj heq
  rw [List.mem_map] at hp
  obtain ⟨f, -, rfl⟩ := hp
  rw [List.mem_filter] at hi hj
  have hi2 := of_decide_eq_true hi.2
  have hj2 := of_decide_eq_true hj.2
  rw [heq] at hi2
  exact hi2 hj2

theorem groupKFold_length {k : Nat} {groups : List Nat}
    {folds : List (List Nat × List Nat)}
    (h : groupKFold k groups = .ok folds) : folds.length = k := by
  obtain ⟨-, rfl⟩ := groupKFold_ok _ _ _ h
  rw [List.length_map, List.length_range]

theorem groupKFold_bounds {k : Nat} {groups : List Nat}
    {folds : List (List Nat × List Nat)}
    (h : groupKFold k groups = .ok folds) :
    ∀ p ∈ folds, (∀ i ∈ p.1, i < groups.length) ∧
      ∀ j ∈ p.2, j < groups.length := by
  obtain ⟨-, rfl⟩ := groupKFold_ok _ _ _ h
  intro p hp
  rw [List.mem_map] at hp
  obtain ⟨f, -, rfl⟩ := hp
  constructor <;> intro i hi <;>
    exact List.mem_range.mp (List.mem_filter.mp hi).1

theorem countP_decide_eq_range (k φ : Nat) (hφ : φ < k) :
    (List.range k).countP (fun f => decide (φ = f)) = 1 := by
  have h1 : (List.range k).countP (fun f => decide (φ = f)) =
      List.count φ (List.range k) := by
    rw [List.count_eq_countP]
    exact List.countP_congr (fun x _ => by
      simp only [decide_eq_true_eq, beq_iff_eq]
      exact eq_comm)
  rw [h1]
  exact List.count_eq_one_of_mem (List.nodup_range k) (List.mem_range.mpr hφ)

theorem groupKFold_val_count {k : Nat} {groups : List Nat}
    {folds : List (List Nat × List Nat)}
    (h : groupKFold k groups = .ok folds) (i : Nat)
    (hi : i < groups.length) :
    folds.countP (fun p => decide (i ∈ p.2)) = 1 := by
  obtain ⟨hk, rfl⟩ := groupKFold_ok _ _ _ h
  rw [List.countP_map]
  have hφ : (groups.dedup).indexOf (groups.getD i 0) % k < k :=
    Nat.mod_lt _ (by omega)
  rw [List.countP_congr (fun f _ => ?_), countP_decide_eq_range k _ hφ]
  simp only [Function.comp_apply, decide_eq_true_eq, List.mem_filter,
    List.mem_range]
  exact ⟨fun x => x.2, fun hf => ⟨hi, hf⟩⟩

theorem splitChunks_length : ∀ (ss : List Nat) (l : List α),
    (splitChunks ss l).length = ss.length
  | [], _ => rfl
  | s :: ss, l => by
      simp only [splitChunks, List.length_cons, splitChunks_length ss]

theorem splitChunks_flatten : ∀ (ss : List Nat) (l : List α),
    ss.sum = l.length → (splitChunks ss l).flatten = l
  | [], l, h => by
      have h0 : l = [] := by
        rw [List.sum_nil] at h
        exact (List.length_eq_zero.mp h.symm)
      simp [splitChunks, h0]
  | s :: ss, l, h => by
      rw [List.sum_cons] at h
      simp only [splitChunks, List.flatten_cons]
      rw [splitChunks_flatten ss (l.drop s)
        (by rw [List.length_drop]; omega)]
      exact List.take_append_drop s l

theorem mem_of_mem_splitChunks : ∀ {ss : List Nat} {l c : List α},
    c ∈ splitChunks ss l → ∀ x ∈ c, x ∈ l
  | [], _, c, hc => by simp [splitChunks] at hc
  | s :: ss, l, c, hc => by
      simp only [splitChunks, List.mem_cons] at hc
      rcases hc with rfl | hc
      · exact fun x hx => List.take_subset s l hx
      · exact fun x hx =>
          List.drop_subset s l (mem_of_mem_splitChunks hc x hx)

theorem kfoldSizes_sum_aux (k n : Nat) : ∀ (m : Nat),
    ((List.range m).map (fun f => n / k + if f < n % k then 1 else 0)).sum =
      m * (n / k) + min (n % k) m
  | 0 => by simp
  | m + 1 => by
      rw [List.range_succ, List.map_append, List.sum_append,
        kfoldSizes_sum_aux k n m]
      simp only [List.map_cons, List.map_nil, List.sum_cons, List.sum_nil]
      rcases Nat.lt_or_ge m (n % k) with hm | hm
      · rw [if_pos hm, Nat.min_eq_right (by omega),
          Nat.min_eq_right (by omega)]
        ring
      · rw [if_neg (by omega), Nat.min_eq_left (by omega),
          Nat.min_eq_left (by omega)]
        ring

theorem kfoldSizes_sum (k n : Nat) (hk : 0 < k) :
    (kfoldSizes k n).sum = n := by
  have hmk : n % k ≤ k := le_of_lt (Nat.mod_lt _ hk)
  rw [kfoldSizes, kfoldSizes_sum_aux, Nat.min_eq_left hmk]
  exact Nat.div_add_mod n k

theorem countP_mem_of_counts_sum : ∀ (L : List (List Nat)) (a : Nat),
    (L.map (List.count a)).sum = 1 →
    L.countP (fun c => decide (a ∈ c)) = 1
  | [], _, h => by simp at h
  | c :: L, a, h => by
      simp only [List.map_cons, List.sum_cons] at h
      rw [List.countP_cons]
      rcases Nat.eq_zero_or_pos (List.count a c) with hc | hc
      · have ha : a ∉ c := List.count_eq_zero.mp hc
        rw [if_neg (by simpa using ha),
          countP_mem_of_counts_sum L a (by omega)]
      · have ha : a ∈ c := List.count_pos_iff.mp hc
        rw [if_pos (by simpa using ha)]
        have hsum0 : (L.map (List.count a)).sum = 0 := by omega
        have hz : L.countP (fun c => decide (a ∈ c)) = 0 := by
          rw [List.countP_eq_zero]
          intro c' hc'
          have h0 : List.count a c' = 0 :=
            List.sum_eq_zero_iff.mp hsum0 (List.count a c')
              (List.mem_map_of_mem _ hc')
          simpa using List.count_eq_zero.mp h0
        omega

theorem kfoldShuffle_ok (k n : Nat) (perm : List Nat)
    (folds : List (List Nat × List Nat))
    (h : kfoldShuffle k n perm = .ok folds) :
    2 ≤ k ∧ k ≤ n ∧
    folds = (splitChunks (kfoldSizes k n) perm).map (fun val =>
      ((List.range n).filter (fun i => !(val.contains i)), val)) := by
  rw [kfoldShuffle] at h
  split at h
  · cases h
  · rename_i hcond
    push_neg at hcond
    exact ⟨by omega, by omega, (Except.ok.inj h).symm⟩

theorem kfoldShuffle_length {k n : Nat} {perm : List Nat}
    {folds : List (List Nat × List Nat)}
    (h : kfoldShuffle k n perm = .ok folds) : folds.length = k := by
  obtain ⟨-, -, rfl⟩ := kfoldShuffle_ok _ _ _ _ h
  rw [List.length_map, splitChunks_length, kfoldSizes, List.length_map,
    List.length_range]

theorem kfoldShuffle_bounds {k n : Nat} {perm : List Nat}
    {folds : List (List Nat × List Nat)}
    (hperm : perm.Perm (List.range n))
    (h : kfoldShuffle k n perm = .ok folds) :
    ∀ p ∈ folds, (∀ i ∈ p.1, i < n) ∧ ∀ j ∈ p.2, j < n := by
  obtain ⟨-, -, rfl⟩ := kfoldShuffle_ok _ _ _ _ h
  intro p hp
  rw [List.mem_map] at hp
  obtain ⟨val, hval, rfl⟩ := hp
  constructor
  · intro i hi
    exact List.mem_range.mp (List.mem_filter.mp hi).1
  · intro j hj
    exact List.mem_range.mp
      (hperm.mem_iff.mp (mem_of_mem_splitChunks hval j hj))

theorem kfoldShuffle_val_count {k n : Nat} {perm : List Nat}
    {folds : List (List Nat × List Nat)}
    (hperm : perm.Perm (List.range n))
    (h : kfoldShuffle k n perm = .ok folds) (i : Nat) (hi : i < n) :
    folds.countP (fun p => decide (i ∈ p.2)) = 1 := by
  obtain ⟨hk, -, rfl⟩ := kfoldShuffle_ok _ _ _ _ h
  rw [List.countP_map]
  have hsum :
      ((splitChunks (kfoldSizes k n) perm).map (List.count i)).sum = 1 := by
    rw [← List.count_flatten,
      splitChunks_flatten _ _
        (by rw [kfoldSizes_sum k n (by omega), hperm.length_eq,
              List.length_range]),
      hperm.count_eq]
    exact List.count_eq_one_of_mem (List.nodup_range n)
      (List.mem_range.mpr hi)
  exact countP_mem_of_counts_sum _ i hsum

/-- C5: for `"group-rgi"` and `"group-meas-id"` cross-validation folds, no
grouping-key value occurs among both a fold's train indices and that same
fold's validation indices. -/
theorem C5_cv_group_integrity (dl : DataLoader) (k : Nat) (tf : String)
    (perm : List Nat) (folds : List (List Nat × List Nat))
    (htf : tf = "group-rgi" ∨ tf = "group-meas-id")
    (h : get_cv_split dl k tf perm = .ok folds) :
    ∀ p ∈ folds, ∀ i ∈ p.1, ∀ j ∈ p.2,
      (cvGroups dl tf).getD i 0 ≠ (cvGroups dl tf).getD j 0 := by
  obtain ⟨ti, hti⟩ : ∃ ti, dl.train_indices = some ti := by
    cases hdl : dl.train_indices
    · simp only [get_cv_split, hdl] at h
      cases h
    · exact ⟨_, rfl⟩
  simp only [get_cv_split, hti] at h
  rcases htf with rfl | rfl
  · rw [_create_group_kfold_splits, if_pos rfl] at h
    simpa [cvGroups] using groupKFold_no_group_overlap h
  · rw [_create_group_kfold_splits, if_neg (by decide), if_pos rfl] at h
    simpa [cvGroups] using groupKFold_no_group_overlap h

theorem C5_witness :
    (cvGroups dlW "group-rgi").getD 2 0 ≠
      (cvGroups dlW "group-rgi").getD 0 0 :=
  C5_cv_group_integrity dlW 2 "group-rgi" [0, 1, 2, 3] foldsW (Or.inl rfl)
    rfl ([2, 3], [0, 1]) (by decide) 2 (by decide) 0 (by decide)

/-- C6: every successful `get_cv_split` returns exactly `n_splits`
(train, validation) index pairs, all indices are positions within the
previously selected training subset, and each position of the training
subset occurs in exactly one fold's validation side across the returned
folds — for the grouped fold types as well as for the default shuffled
k-fold, whose seed-determined permutation of the training positions is
`perm`. -/
theorem C6_fold_coverage (dl : DataLoader) (k : Nat) (tf : String)
    (perm : List Nat) (folds : List (List Nat × List Nat))
    (hperm : perm.Perm (List.range (_get_train_data dl).length))
    (h : get_cv_split dl k tf perm = .ok folds) :
    folds.length = k ∧
    (∀ p ∈ folds, (∀ i ∈ p.1, i < (_get_train_data dl).length) ∧
      ∀ j ∈ p.2, j < (_get_train_data dl).length) ∧
    (∀ i, i < (_get_train_data dl).length →
      folds.countP (fun p => decide (i ∈ p.2)) = 1) := by
  obtain ⟨ti, hti⟩ : ∃ ti, dl.train_indices = some ti := by
    cases hdl : dl.train_indices
    · simp only [get_cv_split, hdl] at h
      cases h
    · exact ⟨_, rfl⟩
  simp only [get_cv_split, hti] at h
  rw [_create_group_kfold_splits] at h
  by_cases h1 : tf = "group-rgi"
  · rw [if_pos h1] at h
    refine ⟨groupKFold_length h, ?_, ?_⟩
    · intro p hp
      have hb := groupKFold_bounds h p hp
      rwa [List.length_map] at hb
    · intro i hi
      exact groupKFold_val_count h i (by rwa [List.length_map])
  · rw [if_neg h1] at h
    by_cases h2 : tf = "group-meas-id"
    · rw [if_pos h2] at h
      refine ⟨groupKFold_length h, ?_, ?_⟩
      · intro p hp
        have hb := groupKFold_bounds h p hp
        rwa [List.length_map] at hb
      · intro i hi
        exact groupKFold_val_count h i (by rwa [List.length_map])
    · rw [if_neg h2] at h
      have hperm' : perm.Perm
          (List.range ((_get_train_data dl).map (fun r => r.RGIId)).length) := by
        rwa [List.length_map]
      refine ⟨?_, ?_, ?_⟩
      · exact kfoldShuffle_length h
      · intro p hp
        have hb := kfoldShuffle_bounds hperm' h p hp
        rwa [List.length_map] at hb
      · intro i hi
        exact kfoldShuffle_val_count hperm' h i (by rwa [List.length_map])

theorem C6_witness :
    foldsW.countP (fun p => decide (0 ∈ p.2)) = 1 :=
  (C6_fold_coverage dlW 2 "group-rgi" [0, 1, 2, 3] foldsW (by decide)
    rfl).2.2 0 (by decide)

end MBM
